import Mathlib

/-!
Verification development for the ARES 3D scene-graph engine.

The C++ sources are shallowly embedded in Lean 4:

* `glutils::Mat<4>` stores floats column-major in `m_data[col][row]`; here a
  matrix is the function `Mat4 := Matrix (Fin 4) (Fin 4) ℚ` indexed
  mathematically as `M row col`, so the source access `m_data[c][r]`
  corresponds to `M r c`.  The row-major array literals the source feeds to
  the `Mat4(float[4][4])` constructor (which transposes into column-major
  storage) therefore map verbatim onto row-major `m4` literals here.
* Float arithmetic is modelled by exact rational arithmetic; calls into the
  float math library (`cosf`, `sinf`, `tanf`) are modelled by passing the
  already-evaluated value as an explicit parameter.
* `shared_ptr`/`weak_ptr` graphs are modelled by inductive trees: a null
  `NodePtr` is the `RNode.null` constructor, a `weak_ptr` parent chain is the
  `PNode` ancestor list (where `none` models a lock that returns null).
* Throwing `std::runtime_error` is modelled by `Except String`.
-/

/-- 4x4 rational matrix standing for `ares::glutils::Mat4`, indexed `M row col`
(the source stores entry `(r, c)` at `m_data[c][r]`). -/
abbrev Mat4 := Matrix (Fin 4) (Fin 4) ℚ

/-- Row-major 4x4 matrix literal, mirroring the `Mat4(const float m[4][4])`
constructor applied to a row-major initializer list (the constructor stores
`m_data[c][r] = m[r][c]`, i.e. entry `(r, c) = m[r][c]`). -/
def m4 (a00 a01 a02 a03 a10 a11 a12 a13 a20 a21 a22 a23 a30 a31 a32 a33 : ℚ) : Mat4 :=
  Matrix.of ![![a00, a01, a02, a03], ![a10, a11, a12, a13],
              ![a20, a21, a22, a23], ![a30, a31, a32, a33]]

/-- `Mat::operator*`: `res.m_data[c][r] += m_data[i][r] * rhs.m_data[c][i]`,
i.e. entry `(r, c)` of the product is the sum over `i` of
`this (r, i) * rhs (i, c)`. -/
def matMul (A B : Mat4) : Mat4 :=
  fun r c => ∑ i : Fin 4, A r i * B i c

/-- `Mat::setIdentity`: `m_data[c][r] = (c == r) ? 1 : 0`. -/
def M4setIdentity : Mat4 :=
  fun r c => if c = r then 1 else 0

/-- `Mat::transpose`: `m_data[c][r] = tmp.m_data[r][c]`, so the new entry
`(r, c)` is the old entry `(c, r)`. -/
def M4transpose (M : Mat4) : Mat4 :=
  fun r c => M c r

/-- Overwrite one entry of a matrix; models an assignment to `m_data[c][r]`
(recall entry `(r, c)` is stored at `m_data[c][r]`). -/
def setEntry (M : Mat4) (r c : Fin 4) (v : ℚ) : Mat4 :=
  fun r' c' => if r' = r ∧ c' = c then v else M r' c'

/-- The elementary translation matrix built inside `Mat4::translate`. -/
def translationMat (x y z : ℚ) : Mat4 :=
  m4 1 0 0 x
     0 1 0 y
     0 0 1 z
     0 0 0 1

/-- `Mat4::translate(x, y, z)`: builds the translation matrix `tmp` and
pre-multiplies: `*this = tmp * *this`. -/
def M4translate (x y z : ℚ) (M : Mat4) : Mat4 :=
  matMul (translationMat x y z) M

/-- `Mat4::translateLocalXZ(x, z)`: builds a translation matrix with zero Y
component, post-multiplies (`*this = *this * tmp`) and restores the previous
Y translation entry `m_data[3][1]` (entry `(1, 3)`). -/
def M4translateLocalXZ (x z : ℚ) (M : Mat4) : Mat4 :=
  let tmp := translationMat x 0 z
  let y := M 1 3
  setEntry (matMul M tmp) 1 3 y

/-- The rotation matrix about X built inside `Mat4::rotateX`; `cosx` and
`sinx` stand for the float-library values `cosf(x)` and `sinf(x)`. -/
def rotXMat (cosx sinx : ℚ) : Mat4 :=
  m4 1 0    0       0
     0 cosx (-sinx) 0
     0 sinx cosx    0
     0 0    0       1

/-- `Mat4::rotateX`: pre-multiplies the X rotation matrix. -/
def M4rotateX (cosx sinx : ℚ) (M : Mat4) : Mat4 :=
  matMul (rotXMat cosx sinx) M

/-- The rotation matrix about Y built inside `Mat4::rotateY`. -/
def rotYMat (cosy siny : ℚ) : Mat4 :=
  m4 cosy    0 siny 0
     0       1 0    0
     (-siny) 0 cosy 0
     0       0 0    1

/-- `Mat4::rotateY`: pre-multiplies the Y rotation matrix. -/
def M4rotateY (cosy siny : ℚ) (M : Mat4) : Mat4 :=
  matMul (rotYMat cosy siny) M

/-- The rotation matrix about Z built inside `Mat4::rotateZ`. -/
def rotZMat (cosz sinz : ℚ) : Mat4 :=
  m4 cosz (-sinz) 0 0
     sinz cosz    0 0
     0    0       1 0
     0    0       0 1

/-- `Mat4::rotateZ`: pre-multiplies the Z rotation matrix. -/
def M4rotateZ (cosz sinz : ℚ) (M : Mat4) : Mat4 :=
  matMul (rotZMat cosz sinz) M

/-- The combined Euler rotation matrix built inside `Mat4::rotateXYZ`;
`cx, sx, cy, sy, cz, sz` stand for the cosines and sines of the three
angles computed by the float library. -/
def rotXYZMat (cx sx cy sy cz sz : ℚ) : Mat4 :=
  m4 (cz * cy) (cz * sy * sx - sz * cx) (cz * sy * cx + sz * sx) 0
     (sz * cy) (sz * sy * sx + cz * cx) (sz * sy * cx - cz * sx) 0
     (-sy)     (cy * sx)                (cy * cx)                0
     0         0                        0                        1

/-- `Mat4::rotateXYZ`: pre-multiplies the combined Euler rotation matrix. -/
def M4rotateXYZ (cx sx cy sy cz sz : ℚ) (M : Mat4) : Mat4 :=
  matMul (rotXYZMat cx sx cy sy cz sz) M

/-- The quaternion rotation matrix built inside `Mat4::rotateXYZW` from the
quaternion components `(x, y, z, w)` (assumed unit, not normalized). -/
def quatMat (x y z w : ℚ) : Mat4 :=
  m4 (1 - 2*y*y - 2*z*z) (2*x*y - 2*z*w)     (2*x*z + 2*y*w)     0
     (2*x*y + 2*z*w)     (1 - 2*x*x - 2*z*z) (2*y*z - 2*x*w)     0
     (2*x*z - 2*y*w)     (2*y*z + 2*x*w)     (1 - 2*x*x - 2*y*y) 0
     0                   0                   0                   1

/-- `Mat4::rotateXYZW`: pre-multiplies the quaternion rotation matrix. -/
def M4rotateXYZW (x y z w : ℚ) (M : Mat4) : Mat4 :=
  matMul (quatMat x y z w) M

/-- The scaling matrix built inside `Mat4::scale`. -/
def scaleMat (x y z : ℚ) : Mat4 :=
  m4 x 0 0 0
     0 y 0 0
     0 0 z 0
     0 0 0 1

/-- `Mat4::scale`: pre-multiplies the scaling matrix. -/
def M4scale (x y z : ℚ) (M : Mat4) : Mat4 :=
  matMul (scaleMat x y z) M

/-- The intermediate cofactor matrix `res` computed by `Mat4::invert`.  The
source writes `res.m_data[c][r]` (entry `(r, c)`) as signed 3x3 cofactor
sums of `m_data[a][b]` accesses (entry `(b, a)`); every index below is the
source index pair transcribed through that storage convention. -/
def cofRes (M : Mat4) : Mat4 :=
  let e00 := M 0 0
  let e01 := M 0 1
  let e02 := M 0 2
  let e03 := M 0 3
  let e10 := M 1 0
  let e11 := M 1 1
  let e12 := M 1 2
  let e13 := M 1 3
  let e20 := M 2 0
  let e21 := M 2 1
  let e22 := M 2 2
  let e23 := M 2 3
  let e30 := M 3 0
  let e31 := M 3 1
  let e32 := M 3 2
  let e33 := M 3 3
  m4 (e11*e22*e33 - e11*e32*e23 - e12*e21*e33 + e12*e31*e23 + e13*e21*e32 - e13*e31*e22)
     (-e01*e22*e33 + e01*e32*e23 + e02*e21*e33 - e02*e31*e23 - e03*e21*e32 + e03*e31*e22)
     (e01*e12*e33 - e01*e32*e13 - e02*e11*e33 + e02*e31*e13 + e03*e11*e32 - e03*e31*e12)
     (-e01*e12*e23 + e01*e22*e13 + e02*e11*e23 - e02*e21*e13 - e03*e11*e22 + e03*e21*e12)
     (-e10*e22*e33 + e10*e32*e23 + e12*e20*e33 - e12*e30*e23 - e13*e20*e32 + e13*e30*e22)
     (e00*e22*e33 - e00*e32*e23 - e02*e20*e33 + e02*e30*e23 + e03*e20*e32 - e03*e30*e22)
     (-e00*e12*e33 + e00*e32*e13 + e02*e10*e33 - e02*e30*e13 - e03*e10*e32 + e03*e30*e12)
     (e00*e12*e23 - e00*e22*e13 - e02*e10*e23 + e02*e20*e13 + e03*e10*e22 - e03*e20*e12)
     (e10*e21*e33 - e10*e31*e23 - e11*e20*e33 + e11*e30*e23 + e13*e20*e31 - e13*e30*e21)
     (-e00*e21*e33 + e00*e31*e23 + e01*e20*e33 - e01*e30*e23 - e03*e20*e31 + e03*e30*e21)
     (e00*e11*e33 - e00*e31*e13 - e01*e10*e33 + e01*e30*e13 + e03*e10*e31 - e03*e30*e11)
     (-e00*e11*e23 + e00*e21*e13 + e01*e10*e23 - e01*e20*e13 - e03*e10*e21 + e03*e20*e11)
     (-e10*e21*e32 + e10*e31*e22 + e11*e20*e32 - e11*e30*e22 - e12*e20*e31 + e12*e30*e21)
     (e00*e21*e32 - e00*e31*e22 - e01*e20*e32 + e01*e30*e22 + e02*e20*e31 - e02*e30*e21)
     (-e00*e11*e32 + e00*e31*e12 + e01*e10*e32 - e01*e30*e12 - e02*e10*e31 + e02*e30*e11)
     (e00*e11*e22 - e00*e21*e12 - e01*e10*e22 + e01*e20*e12 + e02*e10*e21 - e02*e20*e11)

/-- The determinant value computed by `Mat4::invert`:
`det = m_data[0][0]*res.m_data[0][0] + m_data[0][1]*res.m_data[1][0]
     + m_data[0][2]*res.m_data[2][0] + m_data[0][3]*res.m_data[3][0]`. -/
def M4det (M : Mat4) : ℚ :=
  M 0 0 * cofRes M 0 0 + M 1 0 * cofRes M 0 1 + M 2 0 * cofRes M 0 2 + M 3 0 * cofRes M 0 3

/-- `Mat4::invert`: if the computed determinant is nonzero every entry is
replaced by `res.m_data[c][r] * (1/det)`; if it is exactly zero the matrix
is left unchanged. -/
def M4invert (M : Mat4) : Mat4 :=
  let det := M4det M
  if det = 0 then M else fun r c => cofRes M r c * det⁻¹

/-- `eulerToQuaternion`: the four half-angle product formulas; the arguments
stand for the float-library values `cosf(x/2) ... sinf(z/2)`.  The result is
the quaternion `(x, y, z, w)` returned in components `[0..3]`. -/
def eulerToQuaternion (cosHalfX cosHalfY cosHalfZ sinHalfX sinHalfY sinHalfZ : ℚ) :
    ℚ × ℚ × ℚ × ℚ :=
  (sinHalfX * cosHalfY * cosHalfZ - cosHalfX * sinHalfY * sinHalfZ,
   cosHalfX * sinHalfY * cosHalfZ + sinHalfX * cosHalfY * sinHalfZ,
   cosHalfX * cosHalfY * sinHalfZ - sinHalfX * sinHalfY * cosHalfZ,
   cosHalfX * cosHalfY * cosHalfZ + sinHalfX * sinHalfY * sinHalfZ)

/-- Node type tag (`Node::Type`). -/
inductive NodeType where
  | Empty
  | Mesh
  | Camera
  | Light
deriving DecidableEq, Repr

/-- `glutils::Vec3` as used for node position/scaling. -/
structure Vec3Q where
  x : ℚ
  y : ℚ
  z : ℚ
deriving DecidableEq, Repr

/-- `glutils::Vec4` as used for the rotation quaternion `(x, y, z, w)`. -/
structure Vec4Q where
  x : ℚ
  y : ℚ
  z : ℚ
  w : ℚ
deriving DecidableEq, Repr

/-- The per-node state stored by `core::Node` (and the optional mesh payload
attached by `MeshNode`); parent and children links live in the tree and
ancestor-chain types below. -/
structure NodeData where
  name : String
  type : NodeType
  position : Vec3Q
  rotation : Vec4Q
  scaling : Vec3Q
  transformMatrix : Mat4
  mesh : Option Nat
deriving DecidableEq

/-- `Node::Node(name, parent)`: type `Empty`, position `(0,0,0)`, rotation
quaternion `(0,0,0,1)`, scaling `(1,1,1)`, empty child list, and the
transform matrix initialized to the identity via `setIdentity()`.  The mesh
payload of a specialized node is default-null. -/
def mkNodeData (name : String) : NodeData :=
  { name := name
    type := NodeType.Empty
    position := ⟨0, 0, 0⟩
    rotation := ⟨0, 0, 0, 1⟩
    scaling := ⟨1, 1, 1⟩
    transformMatrix := M4setIdentity
    mesh := none }

/-- `Node::updateTransformMatrix`: `setIdentity()`, then `scale`, then
`rotateXYZW`, then `translate` — each pre-multiplying, so the cached local
transform becomes `T * (R * (S * I))`. -/
def updateTransformMatrix (n : NodeData) : NodeData :=
  let m := M4translate n.position.x n.position.y n.position.z
    (M4rotateXYZW n.rotation.x n.rotation.y n.rotation.z n.rotation.w
      (M4scale n.scaling.x n.scaling.y n.scaling.z M4setIdentity))
  { n with transformMatrix := m }

/-- `Node::setPosition`: store the component, then recompute the matrix. -/
def setPosition (x y z : ℚ) (n : NodeData) : NodeData :=
  updateTransformMatrix { n with position := ⟨x, y, z⟩ }

/-- `Node::setRotationEuler`: store `eulerToQuaternion(Vec3(x, y, z))`, then
recompute the matrix.  The six arguments stand for the cosines and sines of
the half angles computed inside `eulerToQuaternion` by the float library. -/
def setRotationEuler (chx chy chz shx shy shz : ℚ) (n : NodeData) : NodeData :=
  let q := eulerToQuaternion chx chy chz shx shy shz
  updateTransformMatrix { n with rotation := ⟨q.1, q.2.1, q.2.2.1, q.2.2.2⟩ }

/-- `Node::setRotationQuaternion`: store the quaternion, then recompute. -/
def setRotationQuaternion (x y z w : ℚ) (n : NodeData) : NodeData :=
  updateTransformMatrix { n with rotation := ⟨x, y, z, w⟩ }

/-- `Node::setScaling`: store the component, then recompute the matrix. -/
def setScaling (x y z : ℚ) (n : NodeData) : NodeData :=
  updateTransformMatrix { n with scaling := ⟨x, y, z⟩ }

/-- Ancestor chain of a node as seen through the `weak_ptr` parent links:
each link holds the node's cached local transform and the (optionally dead
or absent) parent.  `parent none` models `m_parent.lock() == nullptr`. -/
inductive PNode where
  | mk (transformMatrix : Mat4) (parent : Option PNode)

/-- `Node::totalTransformMatrix`: start from the local cached transform; if
`parent()` locks to a non-null node, pre-multiply the parent's recursively
computed total transform. -/
def totalTransformMatrix : PNode → Mat4
  | PNode.mk t none => t
  | PNode.mk t (some p) => matMul (totalTransformMatrix p) t

/-- Scene tree reachable through the owning `shared_ptr` child lists.
`RNode.null` models a null `NodePtr` stored in a child list or passed to a
traversal. -/
inductive RNode where
  | null
  | node (data : NodeData) (children : List RNode)

/-- New node as produced by the `Scene::createNode` factory for the base
node type: `Node::Node(name, parent)` (defaults) with an empty child list. -/
def mkRNode (name : String) : RNode :=
  RNode.node (mkNodeData name) []

/-- `Scene::createNode(name, parent)`: throws `Invalid node parent` when the
parent pointer is null; otherwise constructs the node and appends it to the
parent's child list (`parent->addChild(newNode)`), returning the updated
parent subtree.  The source performs no other validation. -/
def createNode (name : String) (parent : RNode) : Except String RNode :=
  match parent with
  | RNode.null => Except.error "Invalid node parent"
  | RNode.node d cs => Except.ok (RNode.node d (cs ++ [mkRNode name]))

mutual

/-- Names of all nodes in a subtree, in depth-first order. -/
def nodeNames : RNode → List String
  | RNode.null => []
  | RNode.node d cs => d.name :: nodeNamesList cs

/-- Names of all nodes under a child list, in depth-first order. -/
def nodeNamesList : List RNode → List String
  | [] => []
  | c :: cs => nodeNames c ++ nodeNamesList cs

end

mutual

/-- `Scene::parseNodeForLight`: a null node is skipped silently; a node of
light type is appended before recursing into the children. -/
def parseNodeForLight : RNode → List NodeData
  | RNode.null => []
  | RNode.node d cs =>
      (if d.type = NodeType.Light then [d] else []) ++ parseNodeForLightList cs

/-- Child-list recursion of `Scene::parseNodeForLight`. -/
def parseNodeForLightList : List RNode → List NodeData
  | [] => []
  | c :: cs => parseNodeForLight c ++ parseNodeForLightList cs

end

/-- `Scene::getLightNodes`: collect lights starting from the root node. -/
def getLightNodes (root : RNode) : List NodeData :=
  parseNodeForLight root

/-- One invocation of `mesh->draw(mvMatrix, m_projectionMatrix, normalMatrix,
lightVec)` recorded by the traversal. -/
structure DrawCall where
  modelView : Mat4
  projection : Mat4
  normalMatrix : Mat4
  lights : List NodeData
deriving DecidableEq

mutual

/-- `Renderer::renderNode`: a null node is a fatal error; otherwise
`modelMatrix = parentXform * node->transformMatrix()`; a mesh-type node with
a non-null mesh draws with `mvMatrix = m_viewMatrix * modelMatrix` and
`normalMatrix = transpose(invert(modelMatrix))` before the recursion into the
children, which receive `modelMatrix` as their accumulated transform. -/
def renderNode (view proj : Mat4) (lights : List NodeData) :
    RNode → Mat4 → Except String (List DrawCall)
  | RNode.null, _ => Except.error "Found null node during rendering"
  | RNode.node d cs, parentXform =>
      let modelMatrix := matMul parentXform d.transformMatrix
      let own : List DrawCall :=
        if d.type = NodeType.Mesh then
          match d.mesh with
          | some _ =>
              [{ modelView := matMul view modelMatrix
                 projection := proj
                 normalMatrix := M4transpose (M4invert modelMatrix)
                 lights := lights }]
          | none => []
        else []
      match renderChildren view proj lights cs modelMatrix with
      | Except.error e => Except.error e
      | Except.ok rest => Except.ok (own ++ rest)

/-- Child-list recursion of `Renderer::renderNode`; the first error aborts. -/
def renderChildren (view proj : Mat4) (lights : List NodeData) :
    List RNode → Mat4 → Except String (List DrawCall)
  | [], _ => Except.ok []
  | c :: cs, parentXform =>
      match renderNode view proj lights c parentXform with
      | Except.error e => Except.error e
      | Except.ok a =>
          match renderChildren view proj lights cs parentXform with
          | Except.error e => Except.error e
          | Except.ok b => Except.ok (a ++ b)

end

mutual

/-- True when a subtree contains no null child pointer (the tree invariant
the renderer expects). -/
def noNull : RNode → Bool
  | RNode.null => false
  | RNode.node _ cs => noNullList cs

/-- Child-list recursion of `noNull`. -/
def noNullList : List RNode → Bool
  | [] => true
  | c :: cs => noNull c && noNullList cs

end

/-- The drawing context collaborator, reduced to the one observable the
renderer queries: `isDeviceOpen()`. -/
structure DrawingCtx where
  deviceOpen : Bool
deriving DecidableEq

/-- The active camera node as the renderer uses it: its ancestor chain (for
`totalTransformMatrix`) and the optionally attached `Camera`, reduced to the
projection matrix `camera->projectionMatrix()` it supplies. -/
structure CameraNodeM where
  chain : PNode
  camera : Option Mat4

/-- A `core::Scene` as consumed by `Renderer::render`: the (possibly null)
drawing context, the root node, and the (possibly null) active camera. -/
structure SceneM where
  drawingContext : Option DrawingCtx
  rootNode : RNode
  activeCameraNode : Option CameraNodeM

/-- `Renderer::render(scene)`: null scene and null drawing context throw;
a closed device silently returns (`Except.ok none`, no frame); a missing
active camera node or missing camera object throws; otherwise the view
matrix is the inverted camera total transform, lights are collected from
the root, and the traversal starts from the root with the identity as
accumulated transform, yielding the frame's draw calls (`Except.ok (some
draws)`).  The EGL state changes (`activate`, culling, clear, buffer swap)
and the per-light view-space position cache, which no claim observes, are
not modelled. -/
def render (scene? : Option SceneM) : Except String (Option (List DrawCall)) :=
  match scene? with
  | none => Except.error "Invalid scene"
  | some scene =>
      match scene.drawingContext with
      | none => Except.error "Invalid drawing context"
      | some ctx =>
          if ctx.deviceOpen = false then Except.ok none
          else
            match scene.activeCameraNode with
            | none => Except.error "Invalid camera node"
            | some camNode =>
                let viewMatrix := M4invert (totalTransformMatrix camNode.chain)
                match camNode.camera with
                | none => Except.error "Invalid camera"
                | some projectionMatrix =>
                    let lightVec := getLightNodes scene.rootNode
                    match renderNode viewMatrix projectionMatrix lightVec
                        scene.rootNode M4setIdentity with
                    | Except.error e => Except.error e
                    | Except.ok draws => Except.ok (some draws)

/-- `PerspectiveCamera::updateProjectionMatrix`: the finite branch when
`zfar > 0`, the infinite branch otherwise; `tanHalfFov` stands for the
float-library value `tanf(yfov * 0.5)`. -/
def updateProjectionMatrix (aspectRatio tanHalfFov znear zfar : ℚ) : Mat4 :=
  if 0 < zfar then
    let nminusf := znear - zfar
    m4 (1 / (aspectRatio * tanHalfFov)) 0 0 0
       0 (1 / tanHalfFov) 0 0
       0 0 ((zfar + znear) / nminusf) ((2 * zfar * znear) / nminusf)
       0 0 (-1) 0
  else
    m4 (1 / (aspectRatio * tanHalfFov)) 0 0 0
       0 (1 / tanHalfFov) 0 0
       0 0 (-1) (-2 * znear)
       0 0 (-1) 0

/-- The mesh node of the test scenario: local transform identity, one mesh
attached (root → MeshNode(pos=(0,0,0)) with one triangle primitive). -/
def meshDataEx : NodeData :=
  { mkNodeData "mesh" with type := NodeType.Mesh, mesh := some 0 }

/-- The camera node data of the test scenario: a camera node placed at
position `(0, 0, 5)` under the root. -/
def camDataEx : NodeData :=
  { mkNodeData "camera" with
    type := NodeType.Camera
    transformMatrix := translationMat 0 0 5 }

/-- Ancestor chain of the scenario's camera node: local transform
`translate(0, 0, 5)` under the root (identity transform, no parent). -/
def camChainEx : PNode :=
  PNode.mk (translationMat 0 0 5) (some (PNode.mk M4setIdentity none))

/-- Scenario root node: the camera node and the mesh node as children. -/
def rootEx : RNode :=
  RNode.node (mkNodeData "") [RNode.node camDataEx [], RNode.node meshDataEx []]

/-- Scenario scene: open device, scenario tree, scenario camera active with
an identity projection matrix attached. -/
def sceneEx : SceneM :=
  { drawingContext := some { deviceOpen := true }
    rootNode := rootEx
    activeCameraNode := some { chain := camChainEx, camera := some M4setIdentity } }

/-- A scene root that already has a child named "a" (factory input used to
exhibit the missing duplicate-name check of `Scene::createNode`). -/
def rootWithA : RNode :=
  RNode.node (mkNodeData "") [mkRNode "a"]

/-- True when an `Except` result is a success (no exception escaped). -/
def exceptOk {α : Type} : Except String α → Bool
  | Except.ok _ => true
  | Except.error _ => false

/-- The source multiplication coincides with the Mathlib matrix product. -/
theorem matMul_eq_mul (A B : Mat4) : matMul A B = A * B := by
  funext r c
  rw [Matrix.mul_apply]
  rfl

theorem M4setIdentity_eq_one : M4setIdentity = (1 : Mat4) := by
  funext r c
  by_cases h : c = r <;> simp [M4setIdentity, Matrix.one_apply, h, Ne.symm]

section M4EntryLemmas

variable (a00 a01 a02 a03 a10 a11 a12 a13 a20 a21 a22 a23 a30 a31 a32 a33 : ℚ)

@[simp] theorem m4_e00 : m4 a00 a01 a02 a03 a10 a11 a12 a13 a20 a21 a22 a23 a30 a31 a32 a33 0 0 = a00 := rfl

@[simp] theorem m4_e01 : m4 a00 a01 a02 a03 a10 a11 a12 a13 a20 a21 a22 a23 a30 a31 a32 a33 0 1 = a01 := rfl

@[simp] theorem m4_e02 : m4 a00 a01 a02 a03 a10 a11 a12 a13 a20 a21 a22 a23 a30 a31 a32 a33 0 2 = a02 := rfl

@[simp] theorem m4_e03 : m4 a00 a01 a02 a03 a10 a11 a12 a13 a20 a21 a22 a23 a30 a31 a32 a33 0 3 = a03 := rfl

@[simp] theorem m4_e10 : m4 a00 a01 a02 a03 a10 a11 a12 a13 a20 a21 a22 a23 a30 a31 a32 a33 1 0 = a10 := rfl

@[simp] theorem m4_e11 : m4 a00 a01 a02 a03 a10 a11 a12 a13 a20 a21 a22 a23 a30 a31 a32 a33 1 1 = a11 := rfl

@[simp] theorem m4_e12 : m4 a00 a01 a02 a03 a10 a11 a12 a13 a20 a21 a22 a23 a30 a31 a32 a33 1 2 = a12 := rfl

@[simp] theorem m4_e13 : m4 a00 a01 a02 a03 a10 a11 a12 a13 a20 a21 a22 a23 a30 a31 a32 a33 1 3 = a13 := rfl

@[simp] theorem m4_e20 : m4 a00 a01 a02 a03 a10 a11 a12 a13 a20 a21 a22 a23 a30 a31 a32 a33 2 0 = a20 := rfl

@[simp] theorem m4_e21 : m4 a00 a01 a02 a03 a10 a11 a12 a13 a20 a21 a22 a23 a30 a31 a32 a33 2 1 = a21 := rfl

@[simp] theorem m4_e22 : m4 a00 a01 a02 a03 a10 a11 a12 a13 a20 a21 a22 a23 a30 a31 a32 a33 2 2 = a22 := rfl

@[simp] theorem m4_e23 : m4 a00 a01 a02 a03 a10 a11 a12 a13 a20 a21 a22 a23 a30 a31 a32 a33 2 3 = a23 := rfl

@[simp] theorem m4_e30 : m4 a00 a01 a02 a03 a10 a11 a12 a13 a20 a21 a22 a23 a30 a31 a32 a33 3 0 = a30 := rfl

@[simp] theorem m4_e31 : m4 a00 a01 a02 a03 a10 a11 a12 a13 a20 a21 a22 a23 a30 a31 a32 a33 3 1 = a31 := rfl

@[simp] theorem m4_e32 : m4 a00 a01 a02 a03 a10 a11 a12 a13 a20 a21 a22 a23 a30 a31 a32 a33 3 2 = a32 := rfl

@[simp] theorem m4_e33 : m4 a00 a01 a02 a03 a10 a11 a12 a13 a20 a21 a22 a23 a30 a31 a32 a33 3 3 = a33 := rfl

end M4EntryLemmas

/-- The source identity written as a row-major literal. -/
theorem M4setIdentity_eq_m4 :
    M4setIdentity = m4 1 0 0 0 0 1 0 0 0 0 1 0 0 0 0 1 := by
  funext r c
  fin_cases r <;> fin_cases c <;> rfl

/-- The determinant the source computes by cofactor expansion agrees with the
mathematical determinant of the 4x4 matrix. -/
theorem M4det_eq_det (M : Mat4) : M4det M = M.det := by
  have h1 : (Fin.succ 2 : Fin 4) = 3 := rfl
  have h2 : (Fin.castSucc (2 : Fin 3) : Fin 4) = 2 := rfl
  rw [Matrix.det_succ_row_zero]
  simp only [Fin.sum_univ_succ, Fin.sum_univ_zero, Matrix.det_fin_three,
    Matrix.submatrix_apply, Fin.succ_zero_eq_one, Fin.succ_one_eq_two]
  norm_num [Fin.succAbove, Fin.lt_def]
  rw [h1, h2]
  simp only [M4det, cofRes, m4, Matrix.of_apply]
  norm_num [Matrix.cons_val_zero, Matrix.cons_val_one]
  ring

/-- The cofactor matrix is a right adjugate: `M * cofRes M = M4det M • 1`. -/
theorem mul_cofRes (M : Mat4) : matMul M (cofRes M) = M4det M • (1 : Mat4) := by
  funext r c
  have hs : (M4det M • (1 : Mat4)) r c = if r = c then M4det M else 0 := by
    by_cases h : r = c <;> simp [Matrix.smul_apply, Matrix.one_apply, h]
  rw [hs]
  fin_cases r <;> fin_cases c <;>
    simp [matMul, cofRes, M4det, m4, Fin.sum_univ_four] <;> ring

/-- The cofactor matrix is a left adjugate: `cofRes M * M = M4det M • 1`. -/
theorem cofRes_mul (M : Mat4) : matMul (cofRes M) M = M4det M • (1 : Mat4) := by
  funext r c
  have hs : (M4det M • (1 : Mat4)) r c = if r = c then M4det M else 0 := by
    by_cases h : r = c <;> simp [Matrix.smul_apply, Matrix.one_apply, h]
  rw [hs]
  fin_cases r <;> fin_cases c <;>
    simp [matMul, cofRes, M4det, m4, Fin.sum_univ_four] <;> ring

/-- On a nonzero determinant, `Mat4::invert` computes the matrix inverse. -/
theorem M4invert_eq_inv (M : Mat4) (h : M4det M ≠ 0) : M4invert M = M⁻¹ := by
  have hsmul : M4invert M = (M4det M)⁻¹ • cofRes M := by
    funext r c
    simp [M4invert, h, Matrix.smul_apply, mul_comm]
  have hone : M * ((M4det M)⁻¹ • cofRes M) = 1 := by
    rw [Matrix.mul_smul, ← matMul_eq_mul, mul_cofRes, smul_smul,
      inv_mul_cancel₀ h, one_smul]
  rw [hsmul, Matrix.inv_eq_right_inv hone]

/-- Inverting a matrix of nonzero computed determinant yields a matrix whose
computed determinant is again nonzero. -/
theorem M4det_invert_ne_zero (M : Mat4) (h : M4det M ≠ 0) :
    M4det (M4invert M) ≠ 0 := by
  rw [M4invert_eq_inv M h, M4det_eq_det, Matrix.det_nonsing_inv]
  rw [Ring.inverse_eq_inv]
  rw [M4det_eq_det] at h
  exact inv_ne_zero h

/-- Multiplying by the source identity on the right leaves a matrix alone. -/
theorem matMul_one (A : Mat4) : matMul A M4setIdentity = A := by
  rw [matMul_eq_mul, M4setIdentity_eq_one, mul_one]

/-- The matrix cached by `Node::updateTransformMatrix` is exactly the TRS
product `Translate(pos) * (Rotate(quat) * Scale(scale))` of the stored
fields. -/
theorem updateTransformMatrix_trs (n : NodeData) :
    (updateTransformMatrix n).transformMatrix =
      matMul (translationMat n.position.x n.position.y n.position.z)
        (matMul (quatMat n.rotation.x n.rotation.y n.rotation.z n.rotation.w)
          (scaleMat n.scaling.x n.scaling.y n.scaling.z)) := by
  simp [updateTransformMatrix, M4translate, M4rotateXYZW, M4scale, matMul_one]

mutual

/-- On a tree without null children, the traversal never throws. -/
theorem renderNode_ok (v p : Mat4) (l : List NodeData) :
    ∀ (n : RNode) (px : Mat4), noNull n = true →
      exceptOk (renderNode v p l n px) = true
  | RNode.null, _, h => by simp [noNull] at h
  | RNode.node d cs, px, h => by
      have hcs := renderChildren_ok v p l cs (matMul px d.transformMatrix)
        (by simpa [noNull] using h)
      cases hds : renderChildren v p l cs (matMul px d.transformMatrix) with
      | error e => rw [hds] at hcs; simp [exceptOk] at hcs
      | ok ds => simp only [renderNode, hds, exceptOk]

/-- On a child list without null entries, the traversal never throws. -/
theorem renderChildren_ok (v p : Mat4) (l : List NodeData) :
    ∀ (cs : List RNode) (px : Mat4), noNullList cs = true →
      exceptOk (renderChildren v p l cs px) = true
  | [], _, _ => rfl
  | c :: cs, px, h => by
      have h12 : noNull c = true ∧ noNullList cs = true := by
        simpa [noNullList, Bool.and_eq_true] using h
      have ha := renderNode_ok v p l c px h12.1
      have hb := renderChildren_ok v p l cs px h12.2
      cases hA : renderNode v p l c px with
      | error e => rw [hA] at ha; simp [exceptOk] at ha
      | ok a =>
          cases hB : renderChildren v p l cs px with
          | error e => rw [hB] at hb; simp [exceptOk] at hb
          | ok b => simp only [renderChildren, hA, hB, exceptOk]

end

/-- The TRS product of the constructor defaults is the identity matrix. -/
theorem trs_default_id :
    matMul (translationMat 0 0 0) (matMul (quatMat 0 0 0 1) (scaleMat 1 1 1)) =
      M4setIdentity := by
  funext r c
  fin_cases r <;> fin_cases c <;>
    norm_num [matMul, translationMat, quatMat, scaleMat, m4, M4setIdentity,
      Fin.sum_univ_four, Fin.ext_iff, Matrix.vecHead, Matrix.vecTail]

/-- C1.  `Node::totalTransformMatrix` returns
`parent.totalTransformMatrix() * localTransform` when the weak parent
reference locks to a live node, the local transform alone otherwise, and on
the 3-level chain A→B→C with locals `Ta, Tb, Tc` the total transform of C is
`Ta * Tb * Tc`; being recomputed on each call from the current chain, it has
no cached state to go stale. -/
theorem claim_C1 (t ta tb tc : Mat4) (p : PNode) :
    totalTransformMatrix (PNode.mk t (some p)) = matMul (totalTransformMatrix p) t ∧
    totalTransformMatrix (PNode.mk t none) = t ∧
    totalTransformMatrix
        (PNode.mk tc (some (PNode.mk tb (some (PNode.mk ta none))))) =
      matMul (matMul ta tb) tc :=
  ⟨rfl, rfl, rfl⟩

/-- C2.  Each of the four setters stores its component and recomputes the
cached local transform matrix as `Translate(position) * (Rotate(rotation
quaternion) * Scale(scaling))`, scale innermost, from the fields as stored
after the call; the quaternion stored by `setRotationEuler` is the
half-angle product formula of `eulerToQuaternion`. -/
theorem claim_C2 (n : NodeData) (x y z w chx chy chz shx shy shz : ℚ) :
    ((setPosition x y z n).position = ⟨x, y, z⟩ ∧
     (setPosition x y z n).rotation = n.rotation ∧
     (setPosition x y z n).scaling = n.scaling ∧
     (setPosition x y z n).transformMatrix =
       matMul (translationMat x y z)
         (matMul (quatMat n.rotation.x n.rotation.y n.rotation.z n.rotation.w)
           (scaleMat n.scaling.x n.scaling.y n.scaling.z))) ∧
    ((setRotationQuaternion x y z w n).rotation = ⟨x, y, z, w⟩ ∧
     (setRotationQuaternion x y z w n).position = n.position ∧
     (setRotationQuaternion x y z w n).scaling = n.scaling ∧
     (setRotationQuaternion x y z w n).transformMatrix =
       matMul (translationMat n.position.x n.position.y n.position.z)
         (matMul (quatMat x y z w)
           (scaleMat n.scaling.x n.scaling.y n.scaling.z))) ∧
    ((setScaling x y z n).scaling = ⟨x, y, z⟩ ∧
     (setScaling x y z n).position = n.position ∧
     (setScaling x y z n).rotation = n.rotation ∧
     (setScaling x y z n).transformMatrix =
       matMul (translationMat n.position.x n.position.y n.position.z)
         (matMul (quatMat n.rotation.x n.rotation.y n.rotation.z n.rotation.w)
           (scaleMat x y z))) ∧
    ((setRotationEuler chx chy chz shx shy shz n).rotation =
       ⟨shx * chy * chz - chx * shy * shz,
        chx * shy * chz + shx * chy * shz,
        chx * chy * shz - shx * shy * chz,
        chx * chy * chz + shx * shy * shz⟩ ∧
     (setRotationEuler chx chy chz shx shy shz n).transformMatrix =
       matMul (translationMat n.position.x n.position.y n.position.z)
         (matMul (quatMat (shx * chy * chz - chx * shy * shz)
             (chx * shy * chz + shx * chy * shz)
             (chx * chy * shz - shx * shy * chz)
             (chx * chy * chz + shx * shy * shz))
           (scaleMat n.scaling.x n.scaling.y n.scaling.z))) :=
  ⟨⟨rfl, rfl, rfl, updateTransformMatrix_trs _⟩,
   ⟨rfl, rfl, rfl, updateTransformMatrix_trs _⟩,
   ⟨rfl, rfl, rfl, updateTransformMatrix_trs _⟩,
   ⟨rfl, updateTransformMatrix_trs _⟩⟩

/-- C8.  Every composition helper (`translate`, `scale`, `rotateX`,
`rotateY`, `rotateZ`, `rotateXYZ`, `rotateXYZW`) pre-multiplies its
elementary transform onto the current matrix (`new = T * old`), while
`translateLocalXZ` alone post-multiplies (`new = old * T`) and then restores
the previous Y translation entry. -/
theorem claim_C8 (M : Mat4) (x y z cx sx cy sy cz sz qx qy qz qw : ℚ) :
    M4translate x y z M = matMul (translationMat x y z) M ∧
    M4scale x y z M = matMul (scaleMat x y z) M ∧
    M4rotateX cx sx M = matMul (rotXMat cx sx) M ∧
    M4rotateY cy sy M = matMul (rotYMat cy sy) M ∧
    M4rotateZ cz sz M = matMul (rotZMat cz sz) M ∧
    M4rotateXYZ cx sx cy sy cz sz M = matMul (rotXYZMat cx sx cy sy cz sz) M ∧
    M4rotateXYZW qx qy qz qw M = matMul (quatMat qx qy qz qw) M ∧
    M4translateLocalXZ x z M = setEntry (matMul M (translationMat x 0 z)) 1 3 (M 1 3) :=
  ⟨rfl, rfl, rfl, rfl, rfl, rfl, rfl, rfl⟩

/-- C10.  A freshly constructed node has position `(0,0,0)`, identity
rotation quaternion `(0,0,0,1)`, scaling `(1,1,1)`, an empty child list and
an identity cached local transform, and these defaults are mutually
consistent: the TRS product of the default fields is the identity matrix. -/
theorem claim_C10 (name : String) :
    (mkNodeData name).position = ⟨0, 0, 0⟩ ∧
    (mkNodeData name).rotation = ⟨0, 0, 0, 1⟩ ∧
    (mkNodeData name).scaling = ⟨1, 1, 1⟩ ∧
    (mkNodeData name).transformMatrix = M4setIdentity ∧
    mkRNode name = RNode.node (mkNodeData name) [] ∧
    matMul (translationMat 0 0 0) (matMul (quatMat 0 0 0 1) (scaleMat 1 1 1)) =
      M4setIdentity ∧
    (updateTransformMatrix (mkNodeData name)).transformMatrix =
      (mkNodeData name).transformMatrix :=
  ⟨rfl, rfl, rfl, rfl, rfl, trs_default_id,
   by rw [updateTransformMatrix_trs]; exact trs_default_id⟩

/-- C7.  `Scene::createNode` throws exactly on a null parent; with any
non-null parent it unconditionally appends the new node to the parent's
child list and returns it, performing no name-uniqueness check: creating a
node named "a" under a root that already has a child named "a" succeeds and
leaves two nodes named "a" in the scene, contradicting the claimed (and
documented) uniqueness enforcement. -/
theorem claim_C7 :
    createNode "a" rootWithA =
      Except.ok (RNode.node (mkNodeData "") [mkRNode "a", mkRNode "a"]) ∧
    List.count "a" (nodeNames (RNode.node (mkNodeData "") [mkRNode "a", mkRNode "a"])) = 2 ∧
    (∀ (name : String) (d : NodeData) (cs : List RNode),
      createNode name (RNode.node d cs) =
        Except.ok (RNode.node d (cs ++ [mkRNode name]))) ∧
    (∀ name : String, createNode name RNode.null = Except.error "Invalid node parent") :=
  ⟨rfl, by decide, fun _ _ _ => rfl, fun _ => rfl⟩

/-- Multiplying by the source identity on the left leaves a matrix alone. -/
theorem one_matMul (A : Mat4) : matMul M4setIdentity A = A := by
  rw [matMul_eq_mul, M4setIdentity_eq_one, one_mul]

/-- The computed determinant of the identity matrix is one. -/
theorem M4det_id : M4det M4setIdentity = 1 := by
  norm_num [M4det, cofRes, M4setIdentity_eq_m4]

/-- `Mat4::invert` maps the identity matrix to itself. -/
theorem M4invert_id : M4invert M4setIdentity = M4setIdentity := by
  have h : M4det M4setIdentity ≠ 0 := by rw [M4det_id]; norm_num
  rw [M4invert_eq_inv _ h, M4setIdentity_eq_one]
  exact Matrix.inv_eq_right_inv (one_mul _)

/-- `Mat4::transpose` maps the identity matrix to itself. -/
theorem M4transpose_id : M4transpose M4setIdentity = M4setIdentity := by
  funext r c
  by_cases h : c = r <;> simp [M4transpose, M4setIdentity, h, Ne.symm]

/-- C3.  `Mat4::invert` computes the cofactor-expansion inverse in place with
no enforced precondition: the determinant it computes is the true
determinant; when that determinant is exactly zero every entry is left
unchanged (the all-zero matrix is a concrete instance of this silent no-op);
otherwise every entry is replaced by the cofactor divided by the
determinant. -/
theorem claim_C3 (M : Mat4) :
    M4det M = M.det ∧
    (M4det M = 0 → M4invert M = M) ∧
    (M4det M ≠ 0 → ∀ r c, M4invert M r c = cofRes M r c / M4det M) ∧
    M4invert (m4 0 0 0 0 0 0 0 0 0 0 0 0 0 0 0 0) =
      m4 0 0 0 0 0 0 0 0 0 0 0 0 0 0 0 0 := by
  refine ⟨M4det_eq_det M, ?_, ?_, ?_⟩
  · intro h
    simp [M4invert, h]
  · intro h r c
    simp [M4invert, h, div_eq_mul_inv]
  · have hz : M4det (m4 0 0 0 0 0 0 0 0 0 0 0 0 0 0 0 0) = 0 := by
      norm_num [M4det, cofRes]
    simp [M4invert, hz]

/-- Witness for C3: the all-ones matrix (determinant zero) is left unchanged,
and a translation matrix (determinant one) gets every entry replaced by
cofactor over determinant. -/
theorem claim_C3_witness :
    M4invert (m4 1 1 1 1 1 1 1 1 1 1 1 1 1 1 1 1) =
      m4 1 1 1 1 1 1 1 1 1 1 1 1 1 1 1 1 ∧
    M4invert (translationMat 1 2 3) 0 3 =
      cofRes (translationMat 1 2 3) 0 3 / M4det (translationMat 1 2 3) :=
  ⟨(claim_C3 _).2.1 (by norm_num [M4det, cofRes]),
   (claim_C3 _).2.2.1 (by norm_num [M4det, cofRes, translationMat]) 0 3⟩

/-- C4.  The perspective projection matrix: finite branch entries for
`zfar > 0`, infinite branch entries for `zfar <= 0`, the shared `[0,0]` and
`[1,1]` entries, and equality of the two for unit aspect ratio.
`tanHalfFov` stands for `tan(yfov/2)`. -/
theorem claim_C4 (a t zn zf : ℚ) :
    (0 < zf →
      updateProjectionMatrix a t zn zf 2 2 = (zf + zn) / (zn - zf) ∧
      updateProjectionMatrix a t zn zf 2 3 = 2 * zf * zn / (zn - zf) ∧
      updateProjectionMatrix a t zn zf 3 2 = -1) ∧
    (zf ≤ 0 →
      updateProjectionMatrix a t zn zf 2 2 = -1 ∧
      updateProjectionMatrix a t zn zf 2 3 = -2 * zn ∧
      updateProjectionMatrix a t zn zf 3 2 = -1) ∧
    updateProjectionMatrix a t zn zf 0 0 = 1 / (a * t) ∧
    updateProjectionMatrix a t zn zf 1 1 = 1 / t ∧
    (a = 1 →
      updateProjectionMatrix a t zn zf 0 0 = updateProjectionMatrix a t zn zf 1 1) := by
  refine ⟨?_, ?_, ?_, ?_, ?_⟩
  · intro h
    refine ⟨?_, ?_, ?_⟩ <;>
      simp [updateProjectionMatrix, h, m4, Matrix.vecHead, Matrix.vecTail]
  · intro h
    have h2 : ¬(0 < zf) := not_lt.mpr h
    refine ⟨?_, ?_, ?_⟩ <;>
      simp [updateProjectionMatrix, h2, m4, Matrix.vecHead, Matrix.vecTail]
  · by_cases h : 0 < zf <;>
      simp [updateProjectionMatrix, h, m4, Matrix.vecHead, Matrix.vecTail]
  · by_cases h : 0 < zf <;>
      simp [updateProjectionMatrix, h, m4, Matrix.vecHead, Matrix.vecTail]
  · intro ha
    by_cases h : 0 < zf <;>
      simp [updateProjectionMatrix, h, m4, ha, Matrix.vecHead, Matrix.vecTail]

/-- Witness for C4: the finite branch at
`(aspect, tanHalfFov, znear, zfar) = (1, 1, 1/10, 100)` and the infinite
branch at `zfar = 0`. -/
theorem claim_C4_witness :
    updateProjectionMatrix 1 1 (1/10) 100 2 2 = (100 + 1/10) / (1/10 - 100) ∧
    updateProjectionMatrix 1 1 (1/10) 0 2 3 = -2 * (1/10) :=
  ⟨((claim_C4 1 1 (1/10) 100).1 (by norm_num)).1,
   ((claim_C4 1 1 (1/10) 0).2.1 (by norm_num)).2.1⟩

/-- C9.  On any matrix with nonzero computed determinant, applying
`Mat4::invert` twice restores the original matrix exactly (over the exact
arithmetic modelling the float computation): the cofactor-based in-place
inverse is an involution on invertible matrices. -/
theorem claim_C9 (M : Mat4) (h : M4det M ≠ 0) : M4invert (M4invert M) = M := by
  have h2 := M4det_invert_ne_zero M h
  rw [M4invert_eq_inv _ h2, M4invert_eq_inv M h]
  refine Matrix.nonsing_inv_nonsing_inv M ?_
  rw [← M4det_eq_det]
  exact isUnit_iff_ne_zero.mpr h

/-- Witness for C9: double inversion restores a concrete translation
matrix. -/
theorem claim_C9_witness :
    M4invert (M4invert (translationMat 1 2 3)) = translationMat 1 2 3 :=
  claim_C9 _ (by norm_num [M4det, cofRes, translationMat])

/-- The computed determinant of a translation matrix is one. -/
theorem M4det_translation (x y z : ℚ) : M4det (translationMat x y z) = 1 := by
  norm_num [M4det, cofRes, translationMat]

/-- A translation matrix times the opposite translation is the identity. -/
theorem translation_mul_neg (x y z : ℚ) :
    matMul (translationMat x y z) (translationMat (-x) (-y) (-z)) =
      M4setIdentity := by
  funext r c
  rw [M4setIdentity_eq_m4]
  fin_cases r <;> fin_cases c <;>
    norm_num [matMul, translationMat, m4, Fin.sum_univ_four,
      Matrix.vecHead, Matrix.vecTail]

/-- `Mat4::invert` maps a translation matrix to the opposite translation. -/
theorem M4invert_translation (x y z : ℚ) :
    M4invert (translationMat x y z) = translationMat (-x) (-y) (-z) := by
  have h : M4det (translationMat x y z) ≠ 0 := by
    rw [M4det_translation]
    norm_num
  rw [M4invert_eq_inv _ h]
  refine Matrix.inv_eq_right_inv ?_
  rw [← matMul_eq_mul, translation_mul_neg, M4setIdentity_eq_one]

/-- The view matrix of the scenario: the inverse of the camera node's total
transform is the translation by `(0, 0, -5)`. -/
theorem viewEx_eval :
    M4invert (totalTransformMatrix camChainEx) = translationMat 0 0 (-5) := by
  have htot : totalTransformMatrix camChainEx = translationMat 0 0 5 := by
    simp [camChainEx, totalTransformMatrix, one_matMul]
  rw [htot, M4invert_translation]
  norm_num

/-- Full evaluation of the scenario render: one draw call whose model-view
matrix is the view matrix itself (the mesh's local transform is the
identity). -/
theorem renderEx_eval :
    render (some sceneEx) =
      Except.ok (some [{ modelView := translationMat 0 0 (-5)
                         projection := M4setIdentity
                         normalMatrix := M4setIdentity
                         lights := [] }]) := by
  have h1 : matMul M4setIdentity M4setIdentity = M4setIdentity := matMul_one _
  have h2 : matMul (translationMat 0 0 (-5)) M4setIdentity = translationMat 0 0 (-5) :=
    matMul_one _
  simp only [render, sceneEx, viewEx_eval, rootEx, camDataEx, meshDataEx,
    mkNodeData, getLightNodes, parseNodeForLight, parseNodeForLightList,
    renderNode, renderChildren, h1, h2, M4invert_id, M4transpose_id]
  simp

/-- C5.  During the render traversal: a null node is a fatal error; a
mesh-type node with a non-null mesh draws with
`modelView = viewMatrix * (parentAccum * localTransform)` and
`normalMatrix = transpose(invert(parentAccum * localTransform))` before its
children, which receive `parentAccum * localTransform` as their accumulated
transform; any non-mesh node only passes that model matrix to its children;
and in the concrete scenario (camera at `(0,0,5)` and an identity-transform
mesh node under the root) the render produces exactly one draw call whose
model-view matrix is the view matrix `translate(0,0,-5)` itself. -/
theorem claim_C5 :
    (∀ (v p : Mat4) (l : List NodeData) (px : Mat4),
      renderNode v p l RNode.null px =
        Except.error "Found null node during rendering") ∧
    (∀ (v p : Mat4) (l : List NodeData) (d : NodeData) (cs : List RNode)
        (px : Mat4) (m : Nat),
      d.type = NodeType.Mesh → d.mesh = some m →
      renderNode v p l (RNode.node d cs) px =
        Except.map
          (fun rest =>
            { modelView := matMul v (matMul px d.transformMatrix)
              projection := p
              normalMatrix := M4transpose (M4invert (matMul px d.transformMatrix))
              lights := l } :: rest)
          (renderChildren v p l cs (matMul px d.transformMatrix))) ∧
    (∀ (v p : Mat4) (l : List NodeData) (d : NodeData) (cs : List RNode)
        (px : Mat4),
      d.type ≠ NodeType.Mesh →
      renderNode v p l (RNode.node d cs) px =
        renderChildren v p l cs (matMul px d.transformMatrix)) ∧
    render (some sceneEx) =
      Except.ok (some [{ modelView := translationMat 0 0 (-5)
                         projection := M4setIdentity
                         normalMatrix := M4setIdentity
                         lights := [] }]) ∧
    M4invert (totalTransformMatrix camChainEx) = translationMat 0 0 (-5) := by
  refine ⟨fun _ _ _ _ => rfl, ?_, ?_, renderEx_eval, viewEx_eval⟩
  · intro v p l d cs px m h1 h2
    cases hc : renderChildren v p l cs (matMul px d.transformMatrix) with
    | error e => simp [renderNode, h1, h2, hc, Except.map]
    | ok rest => simp [renderNode, h1, h2, hc, Except.map]
  · intro v p l d cs px h1
    cases hc : renderChildren v p l cs (matMul px d.transformMatrix) with
    | error e => simp [renderNode, h1, hc]
    | ok rest => simp [renderNode, h1, hc]

/-- Witness for C5: the mesh-node draw equation applied to the scenario's
mesh node (a mesh-type node with mesh id 0 and no children) under an
identity accumulated transform. -/
theorem claim_C5_witness :
    renderNode M4setIdentity M4setIdentity [] (RNode.node meshDataEx []) M4setIdentity =
      Except.map
        (fun rest =>
          { modelView := matMul M4setIdentity
              (matMul M4setIdentity meshDataEx.transformMatrix)
            projection := M4setIdentity
            normalMatrix := M4transpose (M4invert
              (matMul M4setIdentity meshDataEx.transformMatrix))
            lights := [] } :: rest)
        (renderChildren M4setIdentity M4setIdentity [] []
          (matMul M4setIdentity meshDataEx.transformMatrix)) ∧
    (∀ (v p : Mat4) (l : List NodeData) (px : Mat4),
      renderNode v p l (RNode.node camDataEx []) px =
        renderChildren v p l [] (matMul px camDataEx.transformMatrix)) :=
  ⟨claim_C5.2.1 M4setIdentity M4setIdentity [] meshDataEx [] M4setIdentity 0 rfl rfl,
   fun v p l px => claim_C5.2.2.1 v p l camDataEx [] px (by simp [camDataEx, mkNodeData])⟩

/-- C6.  `Renderer::render` throws exactly on: a null scene, a null drawing
context, and — when the device is open — a missing active camera node or a
camera node without a camera object; when the device is not open it silently
returns without drawing; with all collaborators present and a well-formed
tree (no null children) the render succeeds. -/
theorem claim_C6 :
    render none = Except.error "Invalid scene" ∧
    (∀ (root : RNode) (cam : Option CameraNodeM),
      render (some ⟨none, root, cam⟩) = Except.error "Invalid drawing context") ∧
    (∀ (root : RNode) (cam : Option CameraNodeM),
      render (some ⟨some ⟨false⟩, root, cam⟩) = Except.ok none) ∧
    (∀ root : RNode,
      render (some ⟨some ⟨true⟩, root, none⟩) =
        Except.error "Invalid camera node") ∧
    (∀ (root : RNode) (chain : PNode),
      render (some ⟨some ⟨true⟩, root, some ⟨chain, none⟩⟩) =
        Except.error "Invalid camera") ∧
    (∀ (root : RNode) (chain : PNode) (pm : Mat4), noNull root = true →
      exceptOk (render (some ⟨some ⟨true⟩, root, some ⟨chain, some pm⟩⟩)) =
        true) := by
  refine ⟨rfl, fun _ _ => rfl, fun _ _ => rfl, fun _ => rfl, fun _ _ => rfl, ?_⟩
  intro root chain pm h
  have hok := renderNode_ok (M4invert (totalTransformMatrix chain)) pm
    (getLightNodes root) root M4setIdentity h
  cases hR : renderNode (M4invert (totalTransformMatrix chain)) pm
      (getLightNodes root) root M4setIdentity with
  | error e => rw [hR] at hok; simp [exceptOk] at hok
  | ok ds => simp [render, hR, exceptOk]

/-- Witness for C6: the success case on the concrete scenario scene, whose
tree has no null children. -/
theorem claim_C6_witness :
    exceptOk (render (some ⟨some ⟨true⟩, rootEx,
      some ⟨camChainEx, some M4setIdentity⟩⟩)) = true :=
  claim_C6.2.2.2.2.2 rootEx camChainEx M4setIdentity
    (by simp [rootEx, noNull, noNullList])
